import Mathlib

/-!
Shallow embedding of the real-time fluid simulation (`fluid_sim.py`).

Grids are modelled as total functions `ℕ → ℕ → ℚ`; only indices below the
grid size are meaningful.  Every numpy slice assignment of the source is
rendered as a functional update that reads the array state as it was just
before that statement, matching numpy's evaluate-right-hand-side-first
semantics.  Real numbers are modelled by exact rationals.
-/

/-- A scalar grid (`np.full((size, size), 0, dtype=float)`). -/
def Grid : Type := ℕ → ℕ → ℚ

/-- A velocity grid (`np.full((size, size, 2), 0, dtype=float)`), kept as the
pair of its two component channels `velo[:, :, 0]` and `velo[:, :, 1]`. -/
def VField : Type := Grid × Grid

/-- The all-zero scalar field. -/
def zeroF : Grid := fun _ _ => 0

/-- The all-zero velocity field. -/
def zeroV : VField := (zeroF, zeroF)

/-- `table[:, 0] = table[:, 1]`: copy column 1 into column 0. -/
def bCL (t : Grid) : Grid := fun i j => if j = 0 then t i 1 else t i j

/-- `table[:, -1] = table[:, -2]`: copy column `n-2` into column `n-1`. -/
def bCR (n : ℕ) (t : Grid) : Grid := fun i j => if j = n - 1 then t i (n - 2) else t i j

/-- `table[0, :] = table[1, :]`: copy row 1 into row 0. -/
def bRT (t : Grid) : Grid := fun i j => if i = 0 then t 1 j else t i j

/-- `table[-1, :] = table[-2, :]`: copy row `n-2` into row `n-1`. -/
def bRB (n : ℕ) (t : Grid) : Grid := fun i j => if i = n - 1 then t (n - 2) j else t i j

/-- `table[:, 0, k] = -table[:, 1, k]`: negated copy of column 1 into column 0
(one channel of the velocity array). -/
def bCLn (t : Grid) : Grid := fun i j => if j = 0 then -(t i 1) else t i j

/-- `table[:, -1, k] = -table[:, -2, k]`: negated copy of column `n-2` into
column `n-1`. -/
def bCRn (n : ℕ) (t : Grid) : Grid :=
  fun i j => if j = n - 1 then -(t i (n - 2)) else t i j

/-- `table[0, :, k] = -table[1, :, k]`: negated copy of row 1 into row 0. -/
def bRTn (t : Grid) : Grid := fun i j => if i = 0 then -(t 1 j) else t i j

/-- `table[-1, :, k] = -table[-2, :, k]`: negated copy of row `n-2` into row
`n-1`. -/
def bRBn (n : ℕ) (t : Grid) : Grid :=
  fun i j => if i = n - 1 then -(t (n - 2) j) else t i j

/-- A corner assignment `table[p, q] = 0.5 * (table[a1, b1] + table[a2, b2])`. -/
def bCor (p q a1 b1 a2 b2 : ℕ) (t : Grid) : Grid := fun i j =>
  if i = p ∧ j = q then (1/2) * (t a1 b1 + t a2 b2) else t i j

/-- The four corner assignments of `Fluid.set_boundaries`, in source order:
`table[0,0] = 0.5*(table[1,0] + table[0,1])`,
`table[0,-1] = 0.5*(table[1,-1] + table[0,-2])`,
`table[-1,0] = 0.5*(table[-2,0] + table[-1,1])`,
`table[-1,-1] = 0.5*(table[-2,-1] + table[-1,-2])`. -/
def bCorners (n : ℕ) (t : Grid) : Grid :=
  bCor (n - 1) (n - 1) (n - 2) (n - 1) (n - 1) (n - 2)
    (bCor (n - 1) 0 (n - 2) 0 (n - 1) 1
      (bCor 0 (n - 1) 1 (n - 1) 0 (n - 2)
        (bCor 0 0 1 0 0 1 t)))

/-- `Fluid.set_boundaries` on a 2-d (scalar) array: the edge copies in source
order (columns, then rows), then the corner averages. -/
def setBnd (n : ℕ) (t : Grid) : Grid :=
  bCorners n (bRB n (bRT (bCR n (bCL t))))

/-- Channel 0 of the vector-branch `Fluid.set_boundaries`: copied columns,
negated rows, then the componentwise corner averages. -/
def vchanA (n : ℕ) (t : Grid) : Grid := bCorners n (bRBn n (bRTn (bCR n (bCL t))))

/-- Channel 1 of the vector-branch `Fluid.set_boundaries`: negated columns,
copied rows, then the componentwise corner averages. -/
def vchanB (n : ℕ) (t : Grid) : Grid := bCorners n (bRB n (bRT (bCRn n (bCLn t))))

/-- `Fluid.set_boundaries` on the 3-d velocity array.  The two component
channels are updated independently (every statement for channel `k` reads only
channel `k`), so the source-order interleaving factors into one chain per
channel. -/
def setBndV (n : ℕ) (v : VField) : VField := (vchanA n v.1, vchanB n v.2)

/-- Membership in the cell range `[1, n-2]` on both axes; this is the
target region of every `x[1:-1, 1:-1]` slice assignment. -/
abbrev inInterior (n i j : ℕ) : Prop := 1 ≤ i ∧ i ≤ n - 2 ∧ 1 ≤ j ∧ j ≤ n - 2

/-- One Jacobi sweep of `Fluid.lin_solve`: the numpy statement
`x[1:-1,1:-1] = (x0[1:-1,1:-1] + a*(x[2:,1:-1] + x[:-2,1:-1] + x[1:-1,2:] + x[1:-1,:-2])) * c_recip`,
with `c_recip = 1/c`; the right-hand side reads the snapshot `y` of `x`. -/
def jacobiInner (n : ℕ) (a c : ℚ) (x0 y : Grid) : Grid := fun i j =>
  if inInterior n i j then
    (x0 i j + a * (y (i + 1) j + y (i - 1) j + y i (j + 1) + y i (j - 1))) * (1 / c)
  else y i j

/-- `Fluid.lin_solve(x, x0, a, c)` on a scalar field: `iter` sweeps, each
followed by `set_boundaries(x)`. -/
def linSolve (n iter : ℕ) (x x0 : Grid) (a c : ℚ) : Grid :=
  (fun y => setBnd n (jacobiInner n a c x0 y))^[iter] x

/-- One Jacobi sweep of `Fluid.lin_solve` on the 3-d velocity array: the same
stencil is applied to each component channel. -/
def jacobiInnerV (n : ℕ) (a c : ℚ) (v0 v : VField) : VField :=
  (jacobiInner n a c v0.1 v.1, jacobiInner n a c v0.2 v.2)

/-- `Fluid.lin_solve(x, x0, a, c)` on the 3-d velocity array: `iter` sweeps,
each followed by the vector-branch `set_boundaries(x)`. -/
def linSolveV (n iter : ℕ) (v v0 : VField) (a c : ℚ) : VField :=
  (fun w => setBndV n (jacobiInnerV n a c v0 w))^[iter] v

/-- `Fluid.diffuse(x, x0, diff)` on a scalar field. -/
def diffuse (n iter : ℕ) (dt : ℚ) (x x0 : Grid) (k : ℚ) : Grid :=
  if k ≠ 0 then
    linSolve n iter x x0 (dt * k * ((n : ℚ) - 2) * ((n : ℚ) - 2))
      (1 + 6 * (dt * k * ((n : ℚ) - 2) * ((n : ℚ) - 2)))
  else x0

/-- `Fluid.diffuse(x, x0, diff)` on the 3-d velocity array. -/
def diffuseV (n iter : ℕ) (dt : ℚ) (v v0 : VField) (k : ℚ) : VField :=
  if k ≠ 0 then
    linSolveV n iter v v0 (dt * k * ((n : ℚ) - 2) * ((n : ℚ) - 2))
      (1 + 6 * (dt * k * ((n : ℚ) - 2) * ((n : ℚ) - 2)))
  else v0

/-- The four buffers left by the body of `Fluid.project` (up to and including
the pressure-gradient subtraction; the trailing `set_boundaries(self.velo)`
depends on which buffers alias `self.velo` and is applied by the caller). -/
structure ProjOut where
  vx : Grid
  vy : Grid
  pr : Grid
  dv : Grid

/-- The body of `Fluid.project(velo_x, velo_y, p, div)`:
divergence `div[1:-1,1:-1] = -0.5*(velo_x[2:,1:-1] - velo_x[:-2,1:-1] +
velo_y[1:-1,2:] - velo_y[1:-1,:-2]) / self.size`, reset `p[:, :] = 0`,
`set_boundaries(div)`, `set_boundaries(p)`, `lin_solve(p, div, 1, 6)`, then
subtraction of the pressure gradient from both velocity components. -/
def projectSub (n iter : ℕ) (vx vy p dv : Grid) : ProjOut :=
  let dv1 : Grid := fun i j =>
    if inInterior n i j then
      -(1/2) * (vx (i + 1) j - vx (i - 1) j + vy i (j + 1) - vy i (j - 1)) / (n : ℚ)
    else dv i j
  let p1 : Grid := zeroF
  let dv2 := setBnd n dv1
  let p2 := setBnd n p1
  let p3 := linSolve n iter p2 dv2 1 6
  let vx1 : Grid := fun i j =>
    if inInterior n i j then vx i j - (1/2) * (p3 (i + 1) j - p3 (i - 1) j) * (n : ℚ)
    else vx i j
  let vy1 : Grid := fun i j =>
    if inInterior n i j then vy i j - (1/2) * (p3 i (j + 1) - p3 i (j - 1)) * (n : ℚ)
    else vy i j
  ⟨vx1, vy1, p3, dv2⟩

/-- The clamp of `Fluid.advect`: `if x < 0.5: x = 0.5` then
`if x > size + 0.5: x = size + 0.5`. -/
def clampCoord (n : ℕ) (x : ℚ) : ℚ :=
  if x < 1/2 then 1/2 else if x > (n : ℚ) + 1/2 then (n : ℚ) + 1/2 else x

/-- The back-traced `x` coordinate of `Fluid.advect` before clamping:
`x = i - dt*(size-2)*velocity[i,j,0]`. -/
def traceX (n : ℕ) (dt : ℚ) (vel : VField) (i j : ℕ) : ℚ :=
  (i : ℚ) - dt * ((n : ℚ) - 2) * vel.1 i j

/-- The back-traced `y` coordinate of `Fluid.advect` before clamping. -/
def traceY (n : ℕ) (dt : ℚ) (vel : VField) (i j : ℕ) : ℚ :=
  (j : ℚ) - dt * ((n : ℚ) - 2) * vel.2 i j

/-- The loop body of `Fluid.advect` for one interior cell: clamp the traced
coordinates, take `i0 = floor(x)`, `i1 = i0 + 1` (likewise `j0`, `j1`), and
bilinearly interpolate `d0` with weights `s0, s1, t0, t1`. -/
def advectInner (n : ℕ) (dt : ℚ) (d0 : Grid) (vel : VField) (i j : ℕ) : ℚ :=
  let x := clampCoord n (traceX n dt vel i j)
  let y := clampCoord n (traceY n dt vel i j)
  let i0 : ℤ := ⌊x⌋
  let i1 : ℤ := i0 + 1
  let j0 : ℤ := ⌊y⌋
  let j1 : ℤ := j0 + 1
  let s1 := x - (i0 : ℚ)
  let s0 := 1 - s1
  let t1 := y - (j0 : ℚ)
  let t0 := 1 - t1
  s0 * (t0 * d0 i0.toNat j0.toNat + t1 * d0 i0.toNat j1.toNat) +
    s1 * (t0 * d0 i1.toNat j0.toNat + t1 * d0 i1.toNat j1.toNat)

/-- `Fluid.advect(d, d0, velocity)`: write the interpolated value into every
interior cell of `d`, then `set_boundaries(d)` (the scalar branch: `d` is a
2-d array view even when it is a velocity channel). -/
def advect (n : ℕ) (dt : ℚ) (d d0 : Grid) (vel : VField) : Grid :=
  setBnd n (fun i j => if inInterior n i j then advectInner n dt d0 vel i j else d i j)

/-- The state of a `Fluid` instance: configuration scalars and the four owned
buffers (`s`, `density`, `velo`, `velo0`). -/
structure Fluid where
  size : ℕ
  dt : ℚ
  iter : ℕ
  diff : ℚ
  visc : ℚ
  s : Grid
  density : Grid
  velo : VField
  velo0 : VField

/-- Stage 1 of `Fluid.step`: `self.diffuse(self.velo0, self.velo, self.visc)`. -/
def stageDiffuseVelo (f : Fluid) : Fluid :=
  { f with velo0 := diffuseV f.size f.iter f.dt f.velo0 f.velo f.visc }

/-- Stage 2 of `Fluid.step`:
`self.project(self.velo0[:,:,0], self.velo0[:,:,1], self.velo[:,:,0], self.velo[:,:,1])`.
The scratch buffers `p` and `div` are the two channels of `self.velo`, so the
trailing `set_boundaries(self.velo)` lands on the `(p, div)` pair, not on the
argument field `velo0`. -/
def stageProject1 (f : Fluid) : Fluid :=
  let r := projectSub f.size f.iter f.velo0.1 f.velo0.2 f.velo.1 f.velo.2
  { f with velo0 := (r.vx, r.vy), velo := setBndV f.size (r.pr, r.dv) }

/-- Stage 3 of `Fluid.step`: `self.advect(self.velo[:,:,0], self.velo0[:,:,0], self.velo0)`. -/
def stageAdvectVeloX (f : Fluid) : Fluid :=
  { f with velo := (advect f.size f.dt f.velo.1 f.velo0.1 f.velo0, f.velo.2) }

/-- Stage 4 of `Fluid.step`: `self.advect(self.velo[:,:,1], self.velo0[:,:,1], self.velo0)`. -/
def stageAdvectVeloY (f : Fluid) : Fluid :=
  { f with velo := (f.velo.1, advect f.size f.dt f.velo.2 f.velo0.2 f.velo0) }

/-- Stage 5 of `Fluid.step`:
`self.project(self.velo[:,:,0], self.velo[:,:,1], self.velo0[:,:,0], self.velo0[:,:,1])`.
Here `self.velo` is the argument field, so the trailing
`set_boundaries(self.velo)` enforces boundaries on the projected velocity. -/
def stageProject2 (f : Fluid) : Fluid :=
  let r := projectSub f.size f.iter f.velo.1 f.velo.2 f.velo0.1 f.velo0.2
  { f with velo := setBndV f.size (r.vx, r.vy), velo0 := (r.pr, r.dv) }

/-- Stage 6 of `Fluid.step`: `self.diffuse(self.s, self.density, self.diff)`. -/
def stageDiffuseDensity (f : Fluid) : Fluid :=
  { f with s := diffuse f.size f.iter f.dt f.s f.density f.diff }

/-- Stage 7 of `Fluid.step`: `self.advect(self.density, self.s, self.velo)`. -/
def stageAdvectDensity (f : Fluid) : Fluid :=
  { f with density := advect f.size f.dt f.density f.s f.velo }

/-- `Fluid.step`, transcribed line by line from the source. -/
def Fluid.step (f : Fluid) : Fluid :=
  let f1 := { f with velo0 := diffuseV f.size f.iter f.dt f.velo0 f.velo f.visc }
  let r1 := projectSub f1.size f1.iter f1.velo0.1 f1.velo0.2 f1.velo.1 f1.velo.2
  let f2 := { f1 with velo0 := (r1.vx, r1.vy), velo := setBndV f1.size (r1.pr, r1.dv) }
  let f3 := { f2 with velo := (advect f2.size f2.dt f2.velo.1 f2.velo0.1 f2.velo0, f2.velo.2) }
  let f4 := { f3 with velo := (f3.velo.1, advect f3.size f3.dt f3.velo.2 f3.velo0.2 f3.velo0) }
  let r2 := projectSub f4.size f4.iter f4.velo.1 f4.velo.2 f4.velo0.1 f4.velo0.2
  let f5 := { f4 with velo := setBndV f4.size (r2.vx, r2.vy), velo0 := (r2.pr, r2.dv) }
  let f6 := { f5 with s := diffuse f5.size f5.iter f5.dt f5.s f5.density f5.diff }
  { f6 with density := advect f6.size f6.dt f6.density f6.s f6.velo }

/-- `Fluid.total_density`: `self.density[1:-1, 1:-1].sum()`. -/
def totalDensity (f : Fluid) : ℚ :=
  ∑ i ∈ Finset.Ico 1 (f.size - 1), ∑ j ∈ Finset.Ico 1 (f.size - 1), f.density i j

/-- The configuration the specification calls valid: `size >= 3`, `dt > 0`,
non-negative diffusion and viscosity, at least one solver iteration. -/
def validConfig (f : Fluid) : Prop :=
  3 ≤ f.size ∧ 0 < f.dt ∧ 0 ≤ f.diff ∧ 0 ≤ f.visc ∧ 1 ≤ f.iter

/-- The integer row index `int(i0)` used by the interpolation of
`Fluid.advect` at cell `(i, j)`; the code also reads row `i0 + 1`. -/
def advectIdxI (n : ℕ) (dt : ℚ) (vel : VField) (i j : ℕ) : ℤ :=
  ⌊clampCoord n (traceX n dt vel i j)⌋

/-- The integer column index `int(j0)` used by the interpolation of
`Fluid.advect` at cell `(i, j)`; the code also reads column `j0 + 1`. -/
def advectIdxJ (n : ℕ) (dt : ℚ) (vel : VField) (i j : ℕ) : ℤ :=
  ⌊clampCoord n (traceY n dt vel i j)⌋

/-- All four indices `i0, i0+1, j0, j0+1` read by the interpolation of
`Fluid.advect` lie within the array bounds `[0, n-1]` at every interior cell:
this is exactly the condition under which the numpy accesses
`d0[i0i, j0i]`, …, `d0[i1i, j1i]` cannot raise `IndexError`. -/
def advectIdxOK (n : ℕ) (dt : ℚ) (vel : VField) : Prop :=
  ∀ i < n, ∀ j < n, inInterior n i j →
    0 ≤ advectIdxI n dt vel i j ∧ advectIdxI n dt vel i j + 1 ≤ (n : ℤ) - 1 ∧
    0 ≤ advectIdxJ n dt vel i j ∧ advectIdxJ n dt vel i j + 1 ≤ (n : ℤ) - 1

/-- Every array access in the three `advect` calls of `Fluid.step` stays in
bounds, for the velocity fields those calls actually receive. -/
def stepIdxOK (f : Fluid) : Prop :=
  let f2 := stageProject1 (stageDiffuseVelo f)
  let f3 := stageAdvectVeloX f2
  let f6 := stageDiffuseDensity (stageProject2 (stageAdvectVeloY f3))
  advectIdxOK f2.size f2.dt f2.velo0 ∧ advectIdxOK f3.size f3.dt f3.velo0 ∧
    advectIdxOK f6.size f6.dt f6.velo

/-- The Jacobi sweep in the words of the specification: interior update
`x[i,j] = (x0[i,j] + a*(x[i-1,j]+x[i+1,j]+x[i,j-1]+x[i,j+1])) / c` from the
previous sweep's snapshot `y`; compared with `jacobiInner` (the source's
sweep) in the C4 theorem. -/
def jacobiSpecSweep (n : ℕ) (a c : ℚ) (x0 y : Grid) : Grid := fun i j =>
  if inInterior n i j then
    (x0 i j + a * (y (i - 1) j + y (i + 1) j + y i (j - 1) + y i (j + 1))) / c
  else y i j

/-- The scenario density of §8: `100` injected at cell `(5,5)`. -/
def dInj : Grid := fun i j => if i = 5 ∧ j = 5 then 100 else 0

/-- A scalar field whose only nonzero value, `7`, sits at the corner `(0,0)`. -/
def d0c : Grid := fun i j => if i = 0 ∧ j = 0 then 7 else 0

/-- A velocity field with a large x-component at the single interior cell of a
3×3 grid. -/
def velBig : VField := (fun i j => if i = 1 ∧ j = 1 then -10 else 0, zeroF)

/-- A generic vector field used to witness the boundary-reflection claim. -/
def wv : VField :=
  (fun i j => (i : ℚ) + 2 * (j : ℚ), fun i j => 3 * (i : ℚ) - (j : ℚ))

/-- A 3×3 fluid with a valid configuration whose advection back-trace leaves
the grid. -/
def fluidBad1 : Fluid := ⟨3, 1, 1, 0, 0, zeroF, zeroF, velBig, zeroV⟩

/-- A 3×3 fluid whose `velo0` carries a stale boundary value `7` at `(0,1)`. -/
def fluidBad2 : Fluid :=
  ⟨3, 1, 1, 0, 0, zeroF, zeroF, zeroV,
    (fun i j => if i = 0 ∧ j = 1 then 7 else 0, zeroF)⟩

/-- The §8 scenario state: size 10, `dt = 0.5`, 8 iterations, zero diffusion
and viscosity, density 100 at `(5,5)`, all-zero velocity. -/
def fluidSpec : Fluid := ⟨10, 1/2, 8, 0, 0, zeroF, dInj, zeroV, zeroV⟩

example : linSolve 3 1 zeroF zeroF 1 6 1 1 = 0 := by
  norm_num [linSolve, jacobiInner, setBnd, setBndV, bCorners, bCor, bCL, bCR,
    bRT, bRB, zeroF]
example : setBnd 3 (fun i j => if i = 1 ∧ j = 1 then 5 else 0) 0 0 = 5 := by
  norm_num [setBnd, bCorners, bCor, bCL, bCR, bRT, bRB]
example : (setBndV 3 (fun i j => if i = 1 ∧ j = 1 then 5 else 0,
    fun _ _ => 0)).1 0 1 = -5 := by
  norm_num [setBndV, vchanA, bCorners, bCor, bCL, bCR, bRTn, bRBn]

/-! ### Pointwise evaluation of the boundary updates -/

theorem bCL_ne {t : Grid} {i j : ℕ} (h : j ≠ 0) : bCL t i j = t i j := if_neg h

theorem bCL_at {t : Grid} {i : ℕ} : bCL t i 0 = t i 1 := if_pos rfl

theorem bCR_ne {n : ℕ} {t : Grid} {i j : ℕ} (h : j ≠ n - 1) : bCR n t i j = t i j :=
  if_neg h

theorem bCR_at {n : ℕ} {t : Grid} {i : ℕ} : bCR n t i (n - 1) = t i (n - 2) :=
  if_pos rfl

theorem bRT_ne {t : Grid} {i j : ℕ} (h : i ≠ 0) : bRT t i j = t i j := if_neg h

theorem bRT_at {t : Grid} {j : ℕ} : bRT t 0 j = t 1 j := if_pos rfl

theorem bRB_ne {n : ℕ} {t : Grid} {i j : ℕ} (h : i ≠ n - 1) : bRB n t i j = t i j :=
  if_neg h

theorem bRB_at {n : ℕ} {t : Grid} {j : ℕ} : bRB n t (n - 1) j = t (n - 2) j :=
  if_pos rfl

theorem bCLn_ne {t : Grid} {i j : ℕ} (h : j ≠ 0) : bCLn t i j = t i j := if_neg h

theorem bCLn_at {t : Grid} {i : ℕ} : bCLn t i 0 = -(t i 1) := if_pos rfl

theorem bCRn_ne {n : ℕ} {t : Grid} {i j : ℕ} (h : j ≠ n - 1) : bCRn n t i j = t i j :=
  if_neg h

theorem bCRn_at {n : ℕ} {t : Grid} {i : ℕ} : bCRn n t i (n - 1) = -(t i (n - 2)) :=
  if_pos rfl

theorem bRTn_ne {t : Grid} {i j : ℕ} (h : i ≠ 0) : bRTn t i j = t i j := if_neg h

theorem bRTn_at {t : Grid} {j : ℕ} : bRTn t 0 j = -(t 1 j) := if_pos rfl

theorem bRBn_ne {n : ℕ} {t : Grid} {i j : ℕ} (h : i ≠ n - 1) : bRBn n t i j = t i j :=
  if_neg h

theorem bRBn_at {n : ℕ} {t : Grid} {j : ℕ} : bRBn n t (n - 1) j = -(t (n - 2) j) :=
  if_pos rfl

theorem bCor_ne {p q a1 b1 a2 b2 : ℕ} {t : Grid} {i j : ℕ} (h : ¬(i = p ∧ j = q)) :
    bCor p q a1 b1 a2 b2 t i j = t i j := if_neg h

theorem bCor_at {p q a1 b1 a2 b2 : ℕ} {t : Grid} :
    bCor p q a1 b1 a2 b2 t p q = (1/2) * (t a1 b1 + t a2 b2) := if_pos ⟨rfl, rfl⟩

/-! ### Closed forms for the scalar `set_boundaries`, cell class by cell class -/

/-- Cells outside row `0`, row `n-1`, column `0` and column `n-1` are untouched
by `set_boundaries`. -/
theorem setBnd_mid {n : ℕ} {t : Grid} {i j : ℕ}
    (hi0 : i ≠ 0) (hin : i ≠ n - 1) (hj0 : j ≠ 0) (hjn : j ≠ n - 1) :
    setBnd n t i j = t i j := by
  have c1 : ¬(i = n - 1 ∧ j = n - 1) := fun h => hin h.1
  have c2 : ¬(i = n - 1 ∧ j = 0) := fun h => hin h.1
  have c3 : ¬(i = 0 ∧ j = n - 1) := fun h => hi0 h.1
  have c4 : ¬(i = 0 ∧ j = 0) := fun h => hi0 h.1
  simp only [setBnd, bCorners]
  rw [bCor_ne c1, bCor_ne c2, bCor_ne c3, bCor_ne c4, bRB_ne hin, bRT_ne hi0,
    bCR_ne hjn, bCL_ne hj0]

/-- Non-corner cells of column `0` copy the neighbouring cell of column `1`. -/
theorem setBnd_left {n : ℕ} {t : Grid} {i : ℕ} (hn : 3 ≤ n)
    (hi0 : i ≠ 0) (hin : i ≠ n - 1) :
    setBnd n t i 0 = t i 1 := by
  have c1 : ¬(i = n - 1 ∧ (0 : ℕ) = n - 1) := fun h => hin h.1
  have c2 : ¬(i = n - 1 ∧ (0 : ℕ) = 0) := fun h => hin h.1
  have c3 : ¬(i = 0 ∧ (0 : ℕ) = n - 1) := fun h => hi0 h.1
  have c4 : ¬(i = 0 ∧ (0 : ℕ) = 0) := fun h => hi0 h.1
  have hz : (0 : ℕ) ≠ n - 1 := by omega
  simp only [setBnd, bCorners]
  rw [bCor_ne c1, bCor_ne c2, bCor_ne c3, bCor_ne c4, bRB_ne hin, bRT_ne hi0,
    bCR_ne hz, bCL_at]

/-- Non-corner cells of column `n-1` copy the neighbouring cell of column `n-2`. -/
theorem setBnd_right {n : ℕ} {t : Grid} {i : ℕ} (hn : 3 ≤ n)
    (hi0 : i ≠ 0) (hin : i ≠ n - 1) :
    setBnd n t i (n - 1) = t i (n - 2) := by
  have c1 : ¬(i = n - 1 ∧ n - 1 = n - 1) := fun h => hin h.1
  have c2 : ¬(i = n - 1 ∧ n - 1 = 0) := fun h => hin h.1
  have c3 : ¬(i = 0 ∧ n - 1 = n - 1) := fun h => hi0 h.1
  have c4 : ¬(i = 0 ∧ n - 1 = 0) := fun h => hi0 h.1
  have hz : n - 2 ≠ 0 := by omega
  simp only [setBnd, bCorners]
  rw [bCor_ne c1, bCor_ne c2, bCor_ne c3, bCor_ne c4, bRB_ne hin, bRT_ne hi0,
    bCR_at, bCL_ne hz]

/-- Non-corner cells of row `0` copy the neighbouring cell of row `1`. -/
theorem setBnd_top {n : ℕ} {t : Grid} {j : ℕ} (hn : 3 ≤ n)
    (hj0 : j ≠ 0) (hjn : j ≠ n - 1) :
    setBnd n t 0 j = t 1 j := by
  have c1 : ¬((0 : ℕ) = n - 1 ∧ j = n - 1) := by omega
  have c2 : ¬((0 : ℕ) = n - 1 ∧ j = 0) := by omega
  have c3 : ¬((0 : ℕ) = 0 ∧ j = n - 1) := fun h => hjn h.2
  have c4 : ¬((0 : ℕ) = 0 ∧ j = 0) := fun h => hj0 h.2
  have hz : (0 : ℕ) ≠ n - 1 := by omega
  simp only [setBnd, bCorners]
  rw [bCor_ne c1, bCor_ne c2, bCor_ne c3, bCor_ne c4, bRB_ne hz, bRT_at,
    bCR_ne hjn, bCL_ne hj0]

/-- Non-corner cells of row `n-1` copy the neighbouring cell of row `n-2`. -/
theorem setBnd_bottom {n : ℕ} {t : Grid} {j : ℕ} (hn : 3 ≤ n)
    (hj0 : j ≠ 0) (hjn : j ≠ n - 1) :
    setBnd n t (n - 1) j = t (n - 2) j := by
  have c1 : ¬(n - 1 = n - 1 ∧ j = n - 1) := fun h => hjn h.2
  have c2 : ¬(n - 1 = n - 1 ∧ j = 0) := fun h => hj0 h.2
  have c3 : ¬(n - 1 = 0 ∧ j = n - 1) := by omega
  have c4 : ¬(n - 1 = 0 ∧ j = 0) := by omega
  have hz : n - 2 ≠ 0 := by omega
  have hz2 : n - 2 ≠ n - 1 := by omega
  simp only [setBnd, bCorners]
  rw [bCor_ne c1, bCor_ne c2, bCor_ne c3, bCor_ne c4, bRB_at, bRT_ne hz,
    bCR_ne hjn, bCL_ne hj0]

/-- The `(0,0)` corner of the scalar `set_boundaries` evaluates to `t 1 1`. -/
theorem setBnd_c00 {n : ℕ} {t : Grid} (hn : 3 ≤ n) : setBnd n t 0 0 = t 1 1 := by
  have c1 : ¬((0 : ℕ) = n - 1 ∧ (0 : ℕ) = n - 1) := by omega
  have c2 : ¬((0 : ℕ) = n - 1 ∧ (0 : ℕ) = 0) := by omega
  have c3 : ¬((0 : ℕ) = 0 ∧ (0 : ℕ) = n - 1) := by omega
  have h1n : (1 : ℕ) ≠ n - 1 := by omega
  have h0n : (0 : ℕ) ≠ n - 1 := by omega
  simp only [setBnd, bCorners]
  rw [bCor_ne c1, bCor_ne c2, bCor_ne c3, bCor_at,
    bRB_ne h1n, bRT_ne one_ne_zero, bCR_ne h0n, bCL_at,
    bRB_ne h0n, bRT_at, bCR_ne h1n, bCL_ne one_ne_zero]
  ring

/-- The `(0, n-1)` corner of the scalar `set_boundaries` evaluates to
`t 1 (n-2)`. -/
theorem setBnd_c0R {n : ℕ} {t : Grid} (hn : 3 ≤ n) :
    setBnd n t 0 (n - 1) = t 1 (n - 2) := by
  have c1 : ¬((0 : ℕ) = n - 1 ∧ n - 1 = n - 1) := by omega
  have c2 : ¬((0 : ℕ) = n - 1 ∧ n - 1 = 0) := by omega
  have d1 : ¬((1 : ℕ) = 0 ∧ n - 1 = 0) := by omega
  have d2 : ¬((0 : ℕ) = 0 ∧ n - 2 = 0) := by omega
  have h1n : (1 : ℕ) ≠ n - 1 := by omega
  have h0n : (0 : ℕ) ≠ n - 1 := by omega
  have hz : n - 2 ≠ 0 := by omega
  have hz2 : n - 2 ≠ n - 1 := by omega
  simp only [setBnd, bCorners]
  rw [bCor_ne c1, bCor_ne c2, bCor_at,
    bCor_ne d1, bRB_ne h1n, bRT_ne one_ne_zero, bCR_at, bCL_ne hz,
    bCor_ne d2, bRB_ne h0n, bRT_at, bCR_ne hz2, bCL_ne hz]
  ring

/-- The `(n-1, 0)` corner of the scalar `set_boundaries` evaluates to
`t (n-2) 1`. -/
theorem setBnd_cR0 {n : ℕ} {t : Grid} (hn : 3 ≤ n) :
    setBnd n t (n - 1) 0 = t (n - 2) 1 := by
  have c1 : ¬(n - 1 = n - 1 ∧ (0 : ℕ) = n - 1) := by omega
  have d1 : ¬(n - 2 = 0 ∧ (0 : ℕ) = n - 1) := by omega
  have d2 : ¬(n - 2 = 0 ∧ (0 : ℕ) = 0) := by omega
  have d3 : ¬(n - 1 = 0 ∧ (1 : ℕ) = n - 1) := by omega
  have d4 : ¬(n - 1 = 0 ∧ (1 : ℕ) = 0) := by omega
  have h1n : (1 : ℕ) ≠ n - 1 := by omega
  have h0n : (0 : ℕ) ≠ n - 1 := by omega
  have hz : n - 2 ≠ 0 := by omega
  have hz2 : n - 2 ≠ n - 1 := by omega
  simp only [setBnd, bCorners]
  rw [bCor_ne c1, bCor_at,
    bCor_ne d1, bCor_ne d2, bRB_ne hz2, bRT_ne hz, bCR_ne h0n, bCL_at,
    bCor_ne d3, bCor_ne d4, bRB_at, bRT_ne hz, bCR_ne h1n, bCL_ne one_ne_zero]
  ring

/-- The `(n-1, n-1)` corner of the scalar `set_boundaries` evaluates to
`t (n-2) (n-2)`. -/
theorem setBnd_cRR {n : ℕ} {t : Grid} (hn : 3 ≤ n) :
    setBnd n t (n - 1) (n - 1) = t (n - 2) (n - 2) := by
  have d1 : ¬(n - 2 = n - 1 ∧ n - 1 = 0) := by omega
  have d2 : ¬(n - 2 = 0 ∧ n - 1 = n - 1) := by omega
  have d3 : ¬(n - 2 = 0 ∧ n - 1 = 0) := by omega
  have e1 : ¬(n - 1 = n - 1 ∧ n - 2 = 0) := by omega
  have e2 : ¬(n - 1 = 0 ∧ n - 2 = n - 1) := by omega
  have e3 : ¬(n - 1 = 0 ∧ n - 2 = 0) := by omega
  have hz : n - 2 ≠ 0 := by omega
  have hz2 : n - 2 ≠ n - 1 := by omega
  simp only [setBnd, bCorners]
  rw [bCor_at,
    bCor_ne d1, bCor_ne d2, bCor_ne d3, bRB_ne hz2, bRT_ne hz, bCR_at, bCL_ne hz,
    bCor_ne e1, bCor_ne e2, bCor_ne e3, bRB_at, bRT_ne hz, bCR_ne hz2, bCL_ne hz]
  ring

/-! ### Closed forms for the vector `set_boundaries`, channel by channel -/

theorem vchanA_mid {n : ℕ} {t : Grid} {i j : ℕ}
    (hi0 : i ≠ 0) (hin : i ≠ n - 1) (hj0 : j ≠ 0) (hjn : j ≠ n - 1) :
    vchanA n t i j = t i j := by
  have c1 : ¬(i = n - 1 ∧ j = n - 1) := fun h => hin h.1
  have c2 : ¬(i = n - 1 ∧ j = 0) := fun h => hin h.1
  have c3 : ¬(i = 0 ∧ j = n - 1) := fun h => hi0 h.1
  have c4 : ¬(i = 0 ∧ j = 0) := fun h => hi0 h.1
  simp only [vchanA, bCorners]
  rw [bCor_ne c1, bCor_ne c2, bCor_ne c3, bCor_ne c4, bRBn_ne hin, bRTn_ne hi0,
    bCR_ne hjn, bCL_ne hj0]

theorem vchanA_left {n : ℕ} {t : Grid} {i : ℕ} (hn : 3 ≤ n)
    (hi0 : i ≠ 0) (hin : i ≠ n - 1) :
    vchanA n t i 0 = t i 1 := by
  have c1 : ¬(i = n - 1 ∧ (0 : ℕ) = n - 1) := fun h => hin h.1
  have c2 : ¬(i = n - 1 ∧ (0 : ℕ) = 0) := fun h => hin h.1
  have c3 : ¬(i = 0 ∧ (0 : ℕ) = n - 1) := fun h => hi0 h.1
  have c4 : ¬(i = 0 ∧ (0 : ℕ) = 0) := fun h => hi0 h.1
  have h0n : (0 : ℕ) ≠ n - 1 := by omega
  simp only [vchanA, bCorners]
  rw [bCor_ne c1, bCor_ne c2, bCor_ne c3, bCor_ne c4, bRBn_ne hin, bRTn_ne hi0,
    bCR_ne h0n, bCL_at]

theorem vchanA_right {n : ℕ} {t : Grid} {i : ℕ} (hn : 3 ≤ n)
    (hi0 : i ≠ 0) (hin : i ≠ n - 1) :
    vchanA n t i (n - 1) = t i (n - 2) := by
  have c1 : ¬(i = n - 1 ∧ n - 1 = n - 1) := fun h => hin h.1
  have c2 : ¬(i = n - 1 ∧ n - 1 = 0) := fun h => hin h.1
  have c3 : ¬(i = 0 ∧ n - 1 = n - 1) := fun h => hi0 h.1
  have c4 : ¬(i = 0 ∧ n - 1 = 0) := fun h => hi0 h.1
  have hz : n - 2 ≠ 0 := by omega
  simp only [vchanA, bCorners]
  rw [bCor_ne c1, bCor_ne c2, bCor_ne c3, bCor_ne c4, bRBn_ne hin, bRTn_ne hi0,
    bCR_at, bCL_ne hz]

theorem vchanA_top {n : ℕ} {t : Grid} {j : ℕ} (hn : 3 ≤ n)
    (hj0 : j ≠ 0) (hjn : j ≠ n - 1) :
    vchanA n t 0 j = -(t 1 j) := by
  have c1 : ¬((0 : ℕ) = n - 1 ∧ j = n - 1) := by omega
  have c2 : ¬((0 : ℕ) = n - 1 ∧ j = 0) := by omega
  have c3 : ¬((0 : ℕ) = 0 ∧ j = n - 1) := fun h => hjn h.2
  have c4 : ¬((0 : ℕ) = 0 ∧ j = 0) := fun h => hj0 h.2
  have h0n : (0 : ℕ) ≠ n - 1 := by omega
  simp only [vchanA, bCorners]
  rw [bCor_ne c1, bCor_ne c2, bCor_ne c3, bCor_ne c4, bRBn_ne h0n, bRTn_at,
    bCR_ne hjn, bCL_ne hj0]

theorem vchanA_bottom {n : ℕ} {t : Grid} {j : ℕ} (hn : 3 ≤ n)
    (hj0 : j ≠ 0) (hjn : j ≠ n - 1) :
    vchanA n t (n - 1) j = -(t (n - 2) j) := by
  have c1 : ¬(n - 1 = n - 1 ∧ j = n - 1) := fun h => hjn h.2
  have c2 : ¬(n - 1 = n - 1 ∧ j = 0) := fun h => hj0 h.2
  have c3 : ¬(n - 1 = 0 ∧ j = n - 1) := by omega
  have c4 : ¬(n - 1 = 0 ∧ j = 0) := by omega
  have hz : n - 2 ≠ 0 := by omega
  simp only [vchanA, bCorners]
  rw [bCor_ne c1, bCor_ne c2, bCor_ne c3, bCor_ne c4, bRBn_at, bRTn_ne hz,
    bCR_ne hjn, bCL_ne hj0]

theorem vchanA_c00 {n : ℕ} {t : Grid} (hn : 3 ≤ n) : vchanA n t 0 0 = 0 := by
  have c1 : ¬((0 : ℕ) = n - 1 ∧ (0 : ℕ) = n - 1) := by omega
  have c2 : ¬((0 : ℕ) = n - 1 ∧ (0 : ℕ) = 0) := by omega
  have c3 : ¬((0 : ℕ) = 0 ∧ (0 : ℕ) = n - 1) := by omega
  have h1n : (1 : ℕ) ≠ n - 1 := by omega
  have h0n : (0 : ℕ) ≠ n - 1 := by omega
  simp only [vchanA, bCorners]
  rw [bCor_ne c1, bCor_ne c2, bCor_ne c3, bCor_at,
    bRBn_ne h1n, bRTn_ne one_ne_zero, bCR_ne h0n, bCL_at,
    bRBn_ne h0n, bRTn_at, bCR_ne h1n, bCL_ne one_ne_zero]
  ring

theorem vchanA_c0R {n : ℕ} {t : Grid} (hn : 3 ≤ n) : vchanA n t 0 (n - 1) = 0 := by
  have c1 : ¬((0 : ℕ) = n - 1 ∧ n - 1 = n - 1) := by omega
  have c2 : ¬((0 : ℕ) = n - 1 ∧ n - 1 = 0) := by omega
  have d1 : ¬((1 : ℕ) = 0 ∧ n - 1 = 0) := by omega
  have d2 : ¬((0 : ℕ) = 0 ∧ n - 2 = 0) := by omega
  have h1n : (1 : ℕ) ≠ n - 1 := by omega
  have h0n : (0 : ℕ) ≠ n - 1 := by omega
  have hz : n - 2 ≠ 0 := by omega
  have hz2 : n - 2 ≠ n - 1 := by omega
  simp only [vchanA, bCorners]
  rw [bCor_ne c1, bCor_ne c2, bCor_at,
    bCor_ne d1, bRBn_ne h1n, bRTn_ne one_ne_zero, bCR_at, bCL_ne hz,
    bCor_ne d2, bRBn_ne h0n, bRTn_at, bCR_ne hz2, bCL_ne hz]
  ring

theorem vchanA_cR0 {n : ℕ} {t : Grid} (hn : 3 ≤ n) : vchanA n t (n - 1) 0 = 0 := by
  have c1 : ¬(n - 1 = n - 1 ∧ (0 : ℕ) = n - 1) := by omega
  have d1 : ¬(n - 2 = 0 ∧ (0 : ℕ) = n - 1) := by omega
  have d2 : ¬(n - 2 = 0 ∧ (0 : ℕ) = 0) := by omega
  have d3 : ¬(n - 1 = 0 ∧ (1 : ℕ) = n - 1) := by omega
  have d4 : ¬(n - 1 = 0 ∧ (1 : ℕ) = 0) := by omega
  have h1n : (1 : ℕ) ≠ n - 1 := by omega
  have h0n : (0 : ℕ) ≠ n - 1 := by omega
  have hz : n - 2 ≠ 0 := by omega
  have hz2 : n - 2 ≠ n - 1 := by omega
  simp only [vchanA, bCorners]
  rw [bCor_ne c1, bCor_at,
    bCor_ne d1, bCor_ne d2, bRBn_ne hz2, bRTn_ne hz, bCR_ne h0n, bCL_at,
    bCor_ne d3, bCor_ne d4, bRBn_at, bRTn_ne hz, bCR_ne h1n, bCL_ne one_ne_zero]
  ring

theorem vchanA_cRR {n : ℕ} {t : Grid} (hn : 3 ≤ n) :
    vchanA n t (n - 1) (n - 1) = 0 := by
  have d1 : ¬(n - 2 = n - 1 ∧ n - 1 = 0) := by omega
  have d2 : ¬(n - 2 = 0 ∧ n - 1 = n - 1) := by omega
  have d3 : ¬(n - 2 = 0 ∧ n - 1 = 0) := by omega
  have e1 : ¬(n - 1 = n - 1 ∧ n - 2 = 0) := by omega
  have e2 : ¬(n - 1 = 0 ∧ n - 2 = n - 1) := by omega
  have e3 : ¬(n - 1 = 0 ∧ n - 2 = 0) := by omega
  have hz : n - 2 ≠ 0 := by omega
  have hz2 : n - 2 ≠ n - 1 := by omega
  simp only [vchanA, bCorners]
  rw [bCor_at,
    bCor_ne d1, bCor_ne d2, bCor_ne d3, bRBn_ne hz2, bRTn_ne hz, bCR_at, bCL_ne hz,
    bCor_ne e1, bCor_ne e2, bCor_ne e3, bRBn_at, bRTn_ne hz, bCR_ne hz2, bCL_ne hz]
  ring

theorem vchanB_mid {n : ℕ} {t : Grid} {i j : ℕ}
    (hi0 : i ≠ 0) (hin : i ≠ n - 1) (hj0 : j ≠ 0) (hjn : j ≠ n - 1) :
    vchanB n t i j = t i j := by
  have c1 : ¬(i = n - 1 ∧ j = n - 1) := fun h => hin h.1
  have c2 : ¬(i = n - 1 ∧ j = 0) := fun h => hin h.1
  have c3 : ¬(i = 0 ∧ j = n - 1) := fun h => hi0 h.1
  have c4 : ¬(i = 0 ∧ j = 0) := fun h => hi0 h.1
  simp only [vchanB, bCorners]
  rw [bCor_ne c1, bCor_ne c2, bCor_ne c3, bCor_ne c4, bRB_ne hin, bRT_ne hi0,
    bCRn_ne hjn, bCLn_ne hj0]

theorem vchanB_left {n : ℕ} {t : Grid} {i : ℕ} (hn : 3 ≤ n)
    (hi0 : i ≠ 0) (hin : i ≠ n - 1) :
    vchanB n t i 0 = -(t i 1) := by
  have c1 : ¬(i = n - 1 ∧ (0 : ℕ) = n - 1) := fun h => hin h.1
  have c2 : ¬(i = n - 1 ∧ (0 : ℕ) = 0) := fun h => hin h.1
  have c3 : ¬(i = 0 ∧ (0 : ℕ) = n - 1) := fun h => hi0 h.1
  have c4 : ¬(i = 0 ∧ (0 : ℕ) = 0) := fun h => hi0 h.1
  have h0n : (0 : ℕ) ≠ n - 1 := by omega
  simp only [vchanB, bCorners]
  rw [bCor_ne c1, bCor_ne c2, bCor_ne c3, bCor_ne c4, bRB_ne hin, bRT_ne hi0,
    bCRn_ne h0n, bCLn_at]

theorem vchanB_right {n : ℕ} {t : Grid} {i : ℕ} (hn : 3 ≤ n)
    (hi0 : i ≠ 0) (hin : i ≠ n - 1) :
    vchanB n t i (n - 1) = -(t i (n - 2)) := by
  have c1 : ¬(i = n - 1 ∧ n - 1 = n - 1) := fun h => hin h.1
  have c2 : ¬(i = n - 1 ∧ n - 1 = 0) := fun h => hin h.1
  have c3 : ¬(i = 0 ∧ n - 1 = n - 1) := fun h => hi0 h.1
  have c4 : ¬(i = 0 ∧ n - 1 = 0) := fun h => hi0 h.1
  have hz : n - 2 ≠ 0 := by omega
  simp only [vchanB, bCorners]
  rw [bCor_ne c1, bCor_ne c2, bCor_ne c3, bCor_ne c4, bRB_ne hin, bRT_ne hi0,
    bCRn_at, bCLn_ne hz]

theorem vchanB_top {n : ℕ} {t : Grid} {j : ℕ} (hn : 3 ≤ n)
    (hj0 : j ≠ 0) (hjn : j ≠ n - 1) :
    vchanB n t 0 j = t 1 j := by
  have c1 : ¬((0 : ℕ) = n - 1 ∧ j = n - 1) := by omega
  have c2 : ¬((0 : ℕ) = n - 1 ∧ j = 0) := by omega
  have c3 : ¬((0 : ℕ) = 0 ∧ j = n - 1) := fun h => hjn h.2
  have c4 : ¬((0 : ℕ) = 0 ∧ j = 0) := fun h => hj0 h.2
  have h0n : (0 : ℕ) ≠ n - 1 := by omega
  simp only [vchanB, bCorners]
  rw [bCor_ne c1, bCor_ne c2, bCor_ne c3, bCor_ne c4, bRB_ne h0n, bRT_at,
    bCRn_ne hjn, bCLn_ne hj0]

theorem vchanB_bottom {n : ℕ} {t : Grid} {j : ℕ} (hn : 3 ≤ n)
    (hj0 : j ≠ 0) (hjn : j ≠ n - 1) :
    vchanB n t (n - 1) j = t (n - 2) j := by
  have c1 : ¬(n - 1 = n - 1 ∧ j = n - 1) := fun h => hjn h.2
  have c2 : ¬(n - 1 = n - 1 ∧ j = 0) := fun h => hj0 h.2
  have c3 : ¬(n - 1 = 0 ∧ j = n - 1) := by omega
  have c4 : ¬(n - 1 = 0 ∧ j = 0) := by omega
  have hz : n - 2 ≠ 0 := by omega
  simp only [vchanB, bCorners]
  rw [bCor_ne c1, bCor_ne c2, bCor_ne c3, bCor_ne c4, bRB_at, bRT_ne hz,
    bCRn_ne hjn, bCLn_ne hj0]

theorem vchanB_c00 {n : ℕ} {t : Grid} (hn : 3 ≤ n) : vchanB n t 0 0 = 0 := by
  have c1 : ¬((0 : ℕ) = n - 1 ∧ (0 : ℕ) = n - 1) := by omega
  have c2 : ¬((0 : ℕ) = n - 1 ∧ (0 : ℕ) = 0) := by omega
  have c3 : ¬((0 : ℕ) = 0 ∧ (0 : ℕ) = n - 1) := by omega
  have h1n : (1 : ℕ) ≠ n - 1 := by omega
  have h0n : (0 : ℕ) ≠ n - 1 := by omega
  simp only [vchanB, bCorners]
  rw [bCor_ne c1, bCor_ne c2, bCor_ne c3, bCor_at,
    bRB_ne h1n, bRT_ne one_ne_zero, bCRn_ne h0n, bCLn_at,
    bRB_ne h0n, bRT_at, bCRn_ne h1n, bCLn_ne one_ne_zero]
  ring

theorem vchanB_c0R {n : ℕ} {t : Grid} (hn : 3 ≤ n) : vchanB n t 0 (n - 1) = 0 := by
  have c1 : ¬((0 : ℕ) = n - 1 ∧ n - 1 = n - 1) := by omega
  have c2 : ¬((0 : ℕ) = n - 1 ∧ n - 1 = 0) := by omega
  have d1 : ¬((1 : ℕ) = 0 ∧ n - 1 = 0) := by omega
  have d2 : ¬((0 : ℕ) = 0 ∧ n - 2 = 0) := by omega
  have h1n : (1 : ℕ) ≠ n - 1 := by omega
  have h0n : (0 : ℕ) ≠ n - 1 := by omega
  have hz : n - 2 ≠ 0 := by omega
  have hz2 : n - 2 ≠ n - 1 := by omega
  simp only [vchanB, bCorners]
  rw [bCor_ne c1, bCor_ne c2, bCor_at,
    bCor_ne d1, bRB_ne h1n, bRT_ne one_ne_zero, bCRn_at, bCLn_ne hz,
    bCor_ne d2, bRB_ne h0n, bRT_at, bCRn_ne hz2, bCLn_ne hz]
  ring

theorem vchanB_cR0 {n : ℕ} {t : Grid} (hn : 3 ≤ n) : vchanB n t (n - 1) 0 = 0 := by
  have c1 : ¬(n - 1 = n - 1 ∧ (0 : ℕ) = n - 1) := by omega
  have d1 : ¬(n - 2 = 0 ∧ (0 : ℕ) = n - 1) := by omega
  have d2 : ¬(n - 2 = 0 ∧ (0 : ℕ) = 0) := by omega
  have d3 : ¬(n - 1 = 0 ∧ (1 : ℕ) = n - 1) := by omega
  have d4 : ¬(n - 1 = 0 ∧ (1 : ℕ) = 0) := by omega
  have h1n : (1 : ℕ) ≠ n - 1 := by omega
  have h0n : (0 : ℕ) ≠ n - 1 := by omega
  have hz : n - 2 ≠ 0 := by omega
  have hz2 : n - 2 ≠ n - 1 := by omega
  simp only [vchanB, bCorners]
  rw [bCor_ne c1, bCor_at,
    bCor_ne d1, bCor_ne d2, bRB_ne hz2, bRT_ne hz, bCRn_ne h0n, bCLn_at,
    bCor_ne d3, bCor_ne d4, bRB_at, bRT_ne hz, bCRn_ne h1n, bCLn_ne one_ne_zero]
  ring

theorem vchanB_cRR {n : ℕ} {t : Grid} (hn : 3 ≤ n) :
    vchanB n t (n - 1) (n - 1) = 0 := by
  have d1 : ¬(n - 2 = n - 1 ∧ n - 1 = 0) := by omega
  have d2 : ¬(n - 2 = 0 ∧ n - 1 = n - 1) := by omega
  have d3 : ¬(n - 2 = 0 ∧ n - 1 = 0) := by omega
  have e1 : ¬(n - 1 = n - 1 ∧ n - 2 = 0) := by omega
  have e2 : ¬(n - 1 = 0 ∧ n - 2 = n - 1) := by omega
  have e3 : ¬(n - 1 = 0 ∧ n - 2 = 0) := by omega
  have hz : n - 2 ≠ 0 := by omega
  have hz2 : n - 2 ≠ n - 1 := by omega
  simp only [vchanB, bCorners]
  rw [bCor_at,
    bCor_ne d1, bCor_ne d2, bCor_ne d3, bRB_ne hz2, bRT_ne hz, bCRn_at, bCLn_ne hz,
    bCor_ne e1, bCor_ne e2, bCor_ne e3, bRB_at, bRT_ne hz, bCRn_ne hz2, bCLn_ne hz]
  ring

/-! ### Interior preservation and idempotence of the boundary enforcement -/

theorem setBnd_interior {n : ℕ} {t : Grid} {i j : ℕ} (h : inInterior n i j) :
    setBnd n t i j = t i j := by
  obtain ⟨a, b, c, d⟩ := h
  exact setBnd_mid (by omega) (by omega) (by omega) (by omega)

theorem setBnd_idem {n : ℕ} (t : Grid) (hn : 3 ≤ n) :
    setBnd n (setBnd n t) = setBnd n t := by
  have h1n : (1 : ℕ) ≠ n - 1 := by omega
  have hz0 : n - 2 ≠ 0 := by omega
  have hz1 : n - 2 ≠ n - 1 := by omega
  funext i j
  by_cases hi0 : i = 0
  · subst hi0
    by_cases hj0 : j = 0
    · subst hj0
      rw [setBnd_c00 hn, setBnd_c00 hn, setBnd_mid one_ne_zero h1n one_ne_zero h1n]
    · by_cases hjn : j = n - 1
      · subst hjn
        rw [setBnd_c0R hn, setBnd_c0R hn, setBnd_mid one_ne_zero h1n hz0 hz1]
      · rw [setBnd_top hn hj0 hjn, setBnd_top hn hj0 hjn,
          setBnd_mid one_ne_zero h1n hj0 hjn]
  · by_cases hin : i = n - 1
    · subst hin
      by_cases hj0 : j = 0
      · subst hj0
        rw [setBnd_cR0 hn, setBnd_cR0 hn, setBnd_mid hz0 hz1 one_ne_zero h1n]
      · by_cases hjn : j = n - 1
        · subst hjn
          rw [setBnd_cRR hn, setBnd_cRR hn, setBnd_mid hz0 hz1 hz0 hz1]
        · rw [setBnd_bottom hn hj0 hjn, setBnd_bottom hn hj0 hjn,
            setBnd_mid hz0 hz1 hj0 hjn]
    · by_cases hj0 : j = 0
      · subst hj0
        rw [setBnd_left hn hi0 hin, setBnd_left hn hi0 hin,
          setBnd_mid hi0 hin one_ne_zero h1n]
      · by_cases hjn : j = n - 1
        · subst hjn
          rw [setBnd_right hn hi0 hin, setBnd_right hn hi0 hin,
            setBnd_mid hi0 hin hz0 hz1]
        · rw [setBnd_mid hi0 hin hj0 hjn]

theorem vchanA_idem {n : ℕ} (t : Grid) (hn : 3 ≤ n) :
    vchanA n (vchanA n t) = vchanA n t := by
  have h1n : (1 : ℕ) ≠ n - 1 := by omega
  have hz0 : n - 2 ≠ 0 := by omega
  have hz1 : n - 2 ≠ n - 1 := by omega
  funext i j
  by_cases hi0 : i = 0
  · subst hi0
    by_cases hj0 : j = 0
    · subst hj0; rw [vchanA_c00 hn, vchanA_c00 hn]
    · by_cases hjn : j = n - 1
      · subst hjn; rw [vchanA_c0R hn, vchanA_c0R hn]
      · rw [vchanA_top hn hj0 hjn, vchanA_top hn hj0 hjn,
          vchanA_mid one_ne_zero h1n hj0 hjn]
  · by_cases hin : i = n - 1
    · subst hin
      by_cases hj0 : j = 0
      · subst hj0; rw [vchanA_cR0 hn, vchanA_cR0 hn]
      · by_cases hjn : j = n - 1
        · subst hjn; rw [vchanA_cRR hn, vchanA_cRR hn]
        · rw [vchanA_bottom hn hj0 hjn, vchanA_bottom hn hj0 hjn,
            vchanA_mid hz0 hz1 hj0 hjn]
    · by_cases hj0 : j = 0
      · subst hj0
        rw [vchanA_left hn hi0 hin, vchanA_left hn hi0 hin,
          vchanA_mid hi0 hin one_ne_zero h1n]
      · by_cases hjn : j = n - 1
        · subst hjn
          rw [vchanA_right hn hi0 hin, vchanA_right hn hi0 hin,
            vchanA_mid hi0 hin hz0 hz1]
        · rw [vchanA_mid hi0 hin hj0 hjn]

theorem vchanB_idem {n : ℕ} (t : Grid) (hn : 3 ≤ n) :
    vchanB n (vchanB n t) = vchanB n t := by
  have h1n : (1 : ℕ) ≠ n - 1 := by omega
  have hz0 : n - 2 ≠ 0 := by omega
  have hz1 : n - 2 ≠ n - 1 := by omega
  funext i j
  by_cases hi0 : i = 0
  · subst hi0
    by_cases hj0 : j = 0
    · subst hj0; rw [vchanB_c00 hn, vchanB_c00 hn]
    · by_cases hjn : j = n - 1
      · subst hjn; rw [vchanB_c0R hn, vchanB_c0R hn]
      · rw [vchanB_top hn hj0 hjn, vchanB_top hn hj0 hjn,
          vchanB_mid one_ne_zero h1n hj0 hjn]
  · by_cases hin : i = n - 1
    · subst hin
      by_cases hj0 : j = 0
      · subst hj0; rw [vchanB_cR0 hn, vchanB_cR0 hn]
      · by_cases hjn : j = n - 1
        · subst hjn; rw [vchanB_cRR hn, vchanB_cRR hn]
        · rw [vchanB_bottom hn hj0 hjn, vchanB_bottom hn hj0 hjn,
            vchanB_mid hz0 hz1 hj0 hjn]
    · by_cases hj0 : j = 0
      · subst hj0
        rw [vchanB_left hn hi0 hin, vchanB_left hn hi0 hin,
          vchanB_mid hi0 hin one_ne_zero h1n]
      · by_cases hjn : j = n - 1
        · subst hjn
          rw [vchanB_right hn hi0 hin, vchanB_right hn hi0 hin,
            vchanB_mid hi0 hin hz0 hz1]
        · rw [vchanB_mid hi0 hin hj0 hjn]

theorem setBndV_idem {n : ℕ} (v : VField) (hn : 3 ≤ n) :
    setBndV n (setBndV n v) = setBndV n v := by
  unfold setBndV
  exact Prod.ext (vchanA_idem v.1 hn) (vchanB_idem v.2 hn)

/-! ### Zero fields are fixed points of every operation -/

theorem bCL_zero : bCL zeroF = zeroF := by funext i j; simp [bCL, zeroF]

theorem bCR_zero (n : ℕ) : bCR n zeroF = zeroF := by funext i j; simp [bCR, zeroF]

theorem bRT_zero : bRT zeroF = zeroF := by funext i j; simp [bRT, zeroF]

theorem bRB_zero (n : ℕ) : bRB n zeroF = zeroF := by funext i j; simp [bRB, zeroF]

theorem bCLn_zero : bCLn zeroF = zeroF := by funext i j; simp [bCLn, zeroF]

theorem bCRn_zero (n : ℕ) : bCRn n zeroF = zeroF := by funext i j; simp [bCRn, zeroF]

theorem bRTn_zero : bRTn zeroF = zeroF := by funext i j; simp [bRTn, zeroF]

theorem bRBn_zero (n : ℕ) : bRBn n zeroF = zeroF := by funext i j; simp [bRBn, zeroF]

theorem bCor_zero (p q a1 b1 a2 b2 : ℕ) : bCor p q a1 b1 a2 b2 zeroF = zeroF := by
  funext i j; simp [bCor, zeroF]

theorem bCorners_zero (n : ℕ) : bCorners n zeroF = zeroF := by
  simp only [bCorners, bCor_zero]

theorem setBnd_zero (n : ℕ) : setBnd n zeroF = zeroF := by
  simp only [setBnd, bCL_zero, bCR_zero, bRT_zero, bRB_zero, bCorners_zero]

theorem vchanA_zero (n : ℕ) : vchanA n zeroF = zeroF := by
  simp only [vchanA, bCL_zero, bCR_zero, bRTn_zero, bRBn_zero, bCorners_zero]

theorem vchanB_zero (n : ℕ) : vchanB n zeroF = zeroF := by
  simp only [vchanB, bCLn_zero, bCRn_zero, bRT_zero, bRB_zero, bCorners_zero]

theorem setBndV_zero (n : ℕ) : setBndV n zeroV = zeroV := by
  simp only [setBndV, zeroV, vchanA_zero, vchanB_zero]

theorem jacobiInner_zero (n : ℕ) (a c : ℚ) : jacobiInner n a c zeroF zeroF = zeroF := by
  funext i j; simp [jacobiInner, zeroF]

theorem linSolve_zero (n iter : ℕ) (a c : ℚ) :
    linSolve n iter zeroF zeroF a c = zeroF := by
  induction iter with
  | zero => rfl
  | succ k ih =>
    simp only [linSolve] at ih ⊢
    rw [Function.iterate_succ_apply', ih, jacobiInner_zero, setBnd_zero]

theorem jacobiInnerV_zero (n : ℕ) (a c : ℚ) :
    jacobiInnerV n a c zeroV zeroV = zeroV := by
  simp only [jacobiInnerV, zeroV, jacobiInner_zero]

theorem linSolveV_zero (n iter : ℕ) (a c : ℚ) :
    linSolveV n iter zeroV zeroV a c = zeroV := by
  induction iter with
  | zero => rfl
  | succ k ih =>
    simp only [linSolveV] at ih ⊢
    rw [Function.iterate_succ_apply', ih, jacobiInnerV_zero, setBndV_zero]

theorem projectSub_zero (n iter : ℕ) :
    projectSub n iter zeroF zeroF zeroF zeroF = ⟨zeroF, zeroF, zeroF, zeroF⟩ := by
  have h1 : (fun i j =>
      if inInterior n i j then
        -(1/2) * (zeroF (i + 1) j - zeroF (i - 1) j + zeroF i (j + 1) - zeroF i (j - 1))
          / (n : ℚ)
      else zeroF i j) = zeroF := by
    funext i j; simp [zeroF]
  simp only [projectSub, h1, setBnd_zero, linSolve_zero]
  congr 1 <;> funext i j <;> simp [zeroF]

/-! ### Unfolding lemmas for the solver and the advection identity -/

theorem linSolve_succ (n k : ℕ) (x x0 : Grid) (a c : ℚ) :
    linSolve n (k + 1) x x0 a c =
      setBnd n (jacobiInner n a c x0 (linSolve n k x x0 a c)) := by
  simp only [linSolve, Function.iterate_succ_apply']

set_option maxHeartbeats 1000000 in
theorem advectInner_zeroVel {n : ℕ} {dt : ℚ} {d0 : Grid} {i j : ℕ}
    (h1 : 1 ≤ i) (h2 : i ≤ n - 2) (h3 : 1 ≤ j) (h4 : j ≤ n - 2) :
    advectInner n dt d0 zeroV i j = d0 i j := by
  have hn : 3 ≤ n := by omega
  have hx : traceX n dt zeroV i j = (i : ℚ) := by simp [traceX, zeroV, zeroF]
  have hy : traceY n dt zeroV i j = (j : ℚ) := by simp [traceY, zeroV, zeroF]
  have hin : (1 : ℚ) ≤ (i : ℚ) := by exact_mod_cast h1
  have hiN : (i : ℚ) ≤ (n : ℚ) := by exact_mod_cast le_trans h2 (Nat.sub_le n 2)
  have hjn : (1 : ℚ) ≤ (j : ℚ) := by exact_mod_cast h3
  have hjN : (j : ℚ) ≤ (n : ℚ) := by exact_mod_cast le_trans h4 (Nat.sub_le n 2)
  have hclx : clampCoord n ((i : ℕ) : ℚ) = (i : ℚ) := by
    unfold clampCoord
    rw [if_neg (by linarith), if_neg (by push_neg; linarith)]
  have hcly : clampCoord n ((j : ℕ) : ℚ) = (j : ℚ) := by
    unfold clampCoord
    rw [if_neg (by linarith), if_neg (by push_neg; linarith)]
  have hti : ((i : ℤ) + 1).toNat = i + 1 := by omega
  have htj : ((j : ℤ) + 1).toNat = j + 1 := by omega
  have hti0 : ((i : ℤ)).toNat = i := by omega
  have htj0 : ((j : ℤ)).toNat = j := by omega
  simp only [advectInner, hx, hy, hclx, hcly, Int.floor_natCast, hti, htj,
    hti0, htj0]
  push_cast
  ring

theorem advect_zeroVel (n : ℕ) (dt : ℚ) (d d0 : Grid) :
    advect n dt d d0 zeroV =
      setBnd n (fun i j => if inInterior n i j then d0 i j else d i j) := by
  unfold advect
  refine congrArg (setBnd n) ?_
  funext i j
  by_cases h : inInterior n i j
  · rw [if_pos h, if_pos h, advectInner_zeroVel h.1 h.2.1 h.2.2.1 h.2.2.2]
  · rw [if_neg h, if_neg h]

/-! ### Claim theorems -/

/-- C2: every call to `step()` performs exactly the six pipeline stages in the
fixed order — diffuse velocity with viscosity, project, self-advect both
velocity components with the just-projected velocity, project again, diffuse
density with the diffusion coefficient, advect density by the velocity — with
no stage skipped, reordered or repeated. -/
theorem claim2_step_pipeline (f : Fluid) :
    f.step =
      stageAdvectDensity (stageDiffuseDensity (stageProject2
        (stageAdvectVeloY (stageAdvectVeloX (stageProject1
          (stageDiffuseVelo f)))))) := rfl

/-- C4: `lin_solve` performs exactly `iter` sweeps with no early exit, each
sweep recomputing every interior cell from the previous sweep's snapshot by
`x[i,j] = (x0[i,j] + a*(x[i-1,j]+x[i+1,j]+x[i,j-1]+x[i,j+1])) / c` (no cell
reads a neighbour updated in the current sweep), and applies the
BoundaryEnforcer after every sweep. -/
theorem claim4_lin_solve (n iter : ℕ) (x x0 : Grid) (a c : ℚ) (hc : c ≠ 0) :
    linSolve n iter x x0 a c =
      (fun y => setBnd n (jacobiSpecSweep n a c x0 y))^[iter] x := by
  have hfun : (fun y => setBnd n (jacobiInner n a c x0 y)) =
      (fun y => setBnd n (jacobiSpecSweep n a c x0 y)) := by
    funext y
    refine congrArg (setBnd n) ?_
    funext i j
    unfold jacobiInner jacobiSpecSweep
    by_cases h : inInterior n i j
    · rw [if_pos h, if_pos h, mul_one_div]
      ring
    · rw [if_neg h, if_neg h]
  unfold linSolve
  rw [hfun]

/-- C4 witness: the equality at `n = 3`, one sweep, `a = 1`, `c = 6`. -/
theorem claim4_witness :
    linSolve 3 1 zeroF zeroF 1 6 =
      (fun y => setBnd 3 (jacobiSpecSweep 3 1 6 zeroF y))^[1] zeroF :=
  claim4_lin_solve 3 1 zeroF zeroF 1 6 (by norm_num)

/-- C5: the BoundaryEnforcer is idempotent on scalar fields and on vector
fields: applying it twice yields exactly the field obtained by applying it
once. -/
theorem claim5_boundary_idempotent (n : ℕ) (hn : 3 ≤ n) :
    (∀ t : Grid, setBnd n (setBnd n t) = setBnd n t) ∧
    (∀ v : VField, setBndV n (setBndV n v) = setBndV n v) :=
  ⟨fun t => setBnd_idem t hn, fun v => setBndV_idem v hn⟩

/-- C5 witness: idempotence at the concrete size 3. -/
theorem claim5_witness :
    (∀ t : Grid, setBnd 3 (setBnd 3 t) = setBnd 3 t) ∧
    (∀ v : VField, setBndV 3 (setBndV 3 v) = setBndV 3 v) :=
  claim5_boundary_idempotent 3 (by norm_num)

/-- C8 counterexample: with zero velocity, `advect` does NOT reproduce `d0` at
every cell — at the corner `(0,0)` of a 3×3 grid the result is the
boundary-enforced value `0`, not `d0`'s stale value `7`. -/
theorem claim8_counterexample : advect 3 1 zeroF d0c zeroV 0 0 ≠ d0c 0 0 := by
  rw [advect_zeroVel, setBnd_c00 (by norm_num)]
  norm_num [d0c, zeroF]

/-- C8 (amended): with a zero driving velocity, `advect` reproduces `d0`
exactly at every interior cell, and the whole result equals the
boundary-enforced interior patch (so equality at boundary cells holds only
when `d0` already satisfies the boundary condition). -/
theorem claim8_zero_velocity_advection (n : ℕ) (dt : ℚ) (d d0 : Grid) :
    advect n dt d d0 zeroV =
      setBnd n (fun i j => if inInterior n i j then d0 i j else d i j) ∧
    ∀ i j, inInterior n i j → advect n dt d d0 zeroV i j = d0 i j := by
  refine ⟨advect_zeroVel n dt d d0, fun i j h => ?_⟩
  rw [advect_zeroVel, setBnd_interior h, if_pos h]

/-- C8 witness: the interior identity at the single interior cell of a 3×3
grid. -/
theorem claim8_witness : advect 3 1 zeroF d0c zeroV 1 1 = d0c 1 1 :=
  (claim8_zero_velocity_advection 3 1 zeroF d0c).2 1 1 (by norm_num)

/-- C9 counterexample: `diffuse` with coefficient 0 and the `a = 0` LinearSolver
path disagree at the corner `(0,0)`: the copy branch keeps `x0`'s stale boundary
value `7`, while `lin_solve` boundary-enforces it to `0`. -/
theorem claim9_counterexample :
    diffuse 3 1 1 zeroF d0c 0 0 0 ≠ linSolve 3 1 zeroF d0c 0 1 0 0 := by
  have h1 : diffuse 3 1 1 zeroF d0c 0 0 0 = 7 := by norm_num [diffuse, d0c]
  have h2 : linSolve 3 1 zeroF d0c 0 1 0 0 = 0 := by
    rw [linSolve_succ, setBnd_c00 (by norm_num)]
    norm_num [linSolve, jacobiInner, d0c, zeroF]
  rw [h1, h2]
  norm_num

/-- C9 (amended): `diffuse` with coefficient 0 copies `x0` into `x` exactly;
the `a = 0` LinearSolver path produces the same values at every interior cell
(boundary cells instead receive the BoundaryEnforcer of those interior
values), so the two paths agree on the interior but not on the boundary. -/
theorem claim9_zero_diffusion (n iter : ℕ) (dt : ℚ) (x x0 : Grid)
    (hiter : 1 ≤ iter) :
    diffuse n iter dt x x0 0 = x0 ∧
    ∀ i j, inInterior n i j → linSolve n iter x x0 0 1 i j = x0 i j := by
  constructor
  · simp [diffuse]
  · intro i j h
    obtain ⟨k, rfl⟩ : ∃ k, iter = k + 1 := ⟨iter - 1, by omega⟩
    rw [linSolve_succ, setBnd_interior h]
    unfold jacobiInner
    rw [if_pos h]
    ring

/-- C9 witness: both conjuncts at size 3, one iteration. -/
theorem claim9_witness :
    diffuse 3 1 1 zeroF d0c 0 = d0c ∧
    ∀ i j, inInterior 3 i j → linSolve 3 1 zeroF d0c 0 1 i j = d0c i j :=
  claim9_zero_diffusion 3 1 1 zeroF d0c (by norm_num)

/-- C10: after the vector BoundaryEnforcer, each non-corner boundary cell
holds the negation of the adjacent interior cell's wall-normal component and
an unchanged copy of its wall-tangential component.  At the walls `j = 0` and
`j = n-1` the normal direction is the `j`-axis (channel 1 negated, channel 0
copied); at the walls `i = 0` and `i = n-1` it is the `i`-axis (channel 0
negated, channel 1 copied). -/
theorem claim10_boundary_reflection (n : ℕ) (v : VField) :
    (∀ i, 1 ≤ i → i ≤ n - 2 →
      ((setBndV n v).1 i 0 = v.1 i 1 ∧ (setBndV n v).2 i 0 = -(v.2 i 1)) ∧
      ((setBndV n v).1 i (n - 1) = v.1 i (n - 2) ∧
        (setBndV n v).2 i (n - 1) = -(v.2 i (n - 2)))) ∧
    (∀ j, 1 ≤ j → j ≤ n - 2 →
      ((setBndV n v).1 0 j = -(v.1 1 j) ∧ (setBndV n v).2 0 j = v.2 1 j) ∧
      ((setBndV n v).1 (n - 1) j = -(v.1 (n - 2) j) ∧
        (setBndV n v).2 (n - 1) j = v.2 (n - 2) j)) := by
  constructor
  · intro i h1 h2
    have hn : 3 ≤ n := by omega
    exact ⟨⟨vchanA_left hn (by omega) (by omega), vchanB_left hn (by omega) (by omega)⟩,
      ⟨vchanA_right hn (by omega) (by omega), vchanB_right hn (by omega) (by omega)⟩⟩
  · intro j h1 h2
    have hn : 3 ≤ n := by omega
    exact ⟨⟨vchanA_top hn (by omega) (by omega), vchanB_top hn (by omega) (by omega)⟩,
      ⟨vchanA_bottom hn (by omega) (by omega), vchanB_bottom hn (by omega) (by omega)⟩⟩

/-- C10 witness: the left- and right-wall reflection at `n = 3`, `i = 1`, on a
concrete non-trivial vector field. -/
theorem claim10_witness :
    ((setBndV 3 wv).1 1 0 = wv.1 1 1 ∧ (setBndV 3 wv).2 1 0 = -(wv.2 1 1)) ∧
    ((setBndV 3 wv).1 1 2 = wv.1 1 1 ∧ (setBndV 3 wv).2 1 2 = -(wv.2 1 1)) :=
  (claim10_boundary_reflection 3 wv).1 1 (by norm_num) (by norm_num)

/-- C3: the Projector computes the central-difference divergence
`div[i,j] = -0.5*((vx[i+1,j]-vx[i-1,j]) + (vy[i,j+1]-vy[i,j-1]))/size` at
every interior cell, resets `p` to zero and boundary-enforces `div` and `p`,
solves `p` by the LinearSolver with `a = 1`, `c = 6` against `div`, and then
subtracts the pressure gradient `velo_x[i,j] -= 0.5*(p[i+1,j]-p[i-1,j])*size`
(and the `j`-axis analogue for `velo_y`) at every interior cell. -/
theorem claim3_projector (n iter : ℕ) (vx vy p dv : Grid) (i j : ℕ)
    (h : inInterior n i j) :
    (projectSub n iter vx vy p dv).dv i j =
      -(1/2) * ((vx (i + 1) j - vx (i - 1) j) + (vy i (j + 1) - vy i (j - 1)))
        / (n : ℚ) ∧
    (projectSub n iter vx vy p dv).pr =
      linSolve n iter (setBnd n zeroF)
        (setBnd n (fun a b =>
          if inInterior n a b then
            -(1/2) * (vx (a + 1) b - vx (a - 1) b + vy a (b + 1) - vy a (b - 1))
              / (n : ℚ)
          else dv a b)) 1 6 ∧
    (projectSub n iter vx vy p dv).vx i j =
      vx i j - (1/2) * ((projectSub n iter vx vy p dv).pr (i + 1) j -
        (projectSub n iter vx vy p dv).pr (i - 1) j) * (n : ℚ) ∧
    (projectSub n iter vx vy p dv).vy i j =
      vy i j - (1/2) * ((projectSub n iter vx vy p dv).pr i (j + 1) -
        (projectSub n iter vx vy p dv).pr i (j - 1)) * (n : ℚ) := by
  refine ⟨?_, rfl, ?_, ?_⟩
  · show setBnd n _ i j = _
    rw [setBnd_interior h]
    show (if inInterior n i j then _ else _) = _
    rw [if_pos h]
    ring
  · show (if inInterior n i j then _ else _) = _
    rw [if_pos h]
    rfl
  · show (if inInterior n i j then _ else _) = _
    rw [if_pos h]
    rfl

/-- C3 witness: the four equations at `n = 3`, one iteration, concrete fields,
interior cell `(1,1)`. -/
theorem claim3_witness :
    (projectSub 3 1 d0c zeroF zeroF zeroF).dv 1 1 =
      -(1/2) * ((d0c 2 1 - d0c 0 1) + (zeroF 1 2 - zeroF 1 0)) / (3 : ℚ) ∧
    (projectSub 3 1 d0c zeroF zeroF zeroF).pr =
      linSolve 3 1 (setBnd 3 zeroF)
        (setBnd 3 (fun a b =>
          if inInterior 3 a b then
            -(1/2) * (d0c (a + 1) b - d0c (a - 1) b + zeroF a (b + 1) - zeroF a (b - 1))
              / (3 : ℚ)
          else zeroF a b)) 1 6 ∧
    (projectSub 3 1 d0c zeroF zeroF zeroF).vx 1 1 =
      d0c 1 1 - (1/2) * ((projectSub 3 1 d0c zeroF zeroF zeroF).pr 2 1 -
        (projectSub 3 1 d0c zeroF zeroF zeroF).pr 0 1) * (3 : ℚ) ∧
    (projectSub 3 1 d0c zeroF zeroF zeroF).vy 1 1 =
      zeroF 1 1 - (1/2) * ((projectSub 3 1 d0c zeroF zeroF zeroF).pr 1 2 -
        (projectSub 3 1 d0c zeroF zeroF zeroF).pr 1 0) * (3 : ℚ) :=
  claim3_projector 3 1 d0c zeroF zeroF zeroF 1 1 (by norm_num)

/-- C6 (amended): after the pressure-gradient subtraction the BoundaryEnforcer
is applied to `self.velo` — in the second projection call of `step()` that is
the argument velocity field, but in the first call `self.velo` is the pair of
scratch buffers serving as `p` and `div`, and the argument field `velo0` is
left without a final boundary enforcement.  In both calls the Projector
modifies nothing besides the four buffers it received: density, scratch
density and the whole configuration are unchanged. -/
theorem claim6_projector_enforcement (f : Fluid) :
    (stageProject2 f).velo =
      setBndV f.size
        ((projectSub f.size f.iter f.velo.1 f.velo.2 f.velo0.1 f.velo0.2).vx,
         (projectSub f.size f.iter f.velo.1 f.velo.2 f.velo0.1 f.velo0.2).vy) ∧
    (stageProject1 f).velo =
      setBndV f.size
        ((projectSub f.size f.iter f.velo0.1 f.velo0.2 f.velo.1 f.velo.2).pr,
         (projectSub f.size f.iter f.velo0.1 f.velo0.2 f.velo.1 f.velo.2).dv) ∧
    (stageProject1 f).velo0 =
      ((projectSub f.size f.iter f.velo0.1 f.velo0.2 f.velo.1 f.velo.2).vx,
       (projectSub f.size f.iter f.velo0.1 f.velo0.2 f.velo.1 f.velo.2).vy) ∧
    (stageProject1 f).s = f.s ∧ (stageProject1 f).density = f.density ∧
    (stageProject1 f).size = f.size ∧ (stageProject1 f).dt = f.dt ∧
    (stageProject1 f).iter = f.iter ∧ (stageProject1 f).diff = f.diff ∧
    (stageProject1 f).visc = f.visc ∧
    (stageProject2 f).s = f.s ∧ (stageProject2 f).density = f.density ∧
    (stageProject2 f).size = f.size ∧ (stageProject2 f).dt = f.dt ∧
    (stageProject2 f).iter = f.iter ∧ (stageProject2 f).diff = f.diff ∧
    (stageProject2 f).visc = f.visc :=
  ⟨rfl, rfl, rfl, rfl, rfl, rfl, rfl, rfl, rfl, rfl, rfl, rfl, rfl, rfl, rfl,
    rfl, rfl⟩

/-- C6 counterexample: in the first projection call of `step()` the
BoundaryEnforcer is NOT applied to the velocity field passed as arguments: on
`fluidBad2` the post-call argument field still carries the stale boundary
value `7` at `(0,1)`, which no `set_boundaries` output can (it would have to
equal the negation of the interior neighbour, `0`). -/
theorem claim6_counterexample :
    (stageProject1 fluidBad2).velo0 ≠
      setBndV 3
        ((projectSub 3 1 fluidBad2.velo0.1 fluidBad2.velo0.2
            fluidBad2.velo.1 fluidBad2.velo.2).vx,
         (projectSub 3 1 fluidBad2.velo0.1 fluidBad2.velo0.2
            fluidBad2.velo.1 fluidBad2.velo.2).vy) := by
  intro hEq
  have h1 := congrArg (fun w : VField => w.1 0 1) hEq
  norm_num [stageProject1, projectSub, fluidBad2, linSolve, jacobiInner, setBnd,
    setBndV, vchanA, bCorners, bCor, bCL, bCR, bRT, bRB, bRTn, bRBn, zeroF,
    zeroV, Function.iterate_one] at h1

/-- C1 (amended): at every interior cell whose back-traced coordinates stay
below `size - 1`, all four interpolation indices `i0, i0+1, j0, j0+1` of
`advect` lie within `[0, size-1]`.  (The lower clamp at `0.5` makes the lower
bound unconditional; without the upper restriction the clamp bound
`size + 0.5` admits indices up to `size + 1`, which is out of bounds — see the
counterexample.) -/
theorem claim1_advect_indices (n : ℕ) (dt : ℚ) (vel : VField) (hn : 3 ≤ n)
    (hsmall : ∀ i j : ℕ, inInterior n i j →
      traceX n dt vel i j < (n : ℚ) - 1 ∧ traceY n dt vel i j < (n : ℚ) - 1) :
    advectIdxOK n dt vel := by
  have key : ∀ x : ℚ, x < (n : ℚ) - 1 →
      0 ≤ ⌊clampCoord n x⌋ ∧ ⌊clampCoord n x⌋ + 1 ≤ (n : ℤ) - 1 := by
    intro x hxlt
    unfold clampCoord
    by_cases h1 : x < 1/2
    · rw [if_pos h1]
      have hfl : ⌊(1/2 : ℚ)⌋ = 0 := by
        rw [Int.floor_eq_iff]
        norm_num
      rw [hfl]
      omega
    · rw [if_neg h1]
      have h2 : ¬(x > (n : ℚ) + 1/2) := by
        push_neg
        linarith
      rw [if_neg h2]
      push_neg at h1
      constructor
      · exact Int.le_floor.mpr (by push_cast; linarith)
      · have hlt : ⌊x⌋ < (n : ℤ) - 1 := Int.floor_lt.mpr (by push_cast; linarith)
        omega
  intro i hi j hj hint
  obtain ⟨hx, hy⟩ := hsmall i j hint
  exact ⟨(key _ hx).1, (key _ hx).2, (key _ hy).1, (key _ hy).2⟩

/-- C1 witness: with zero velocity on a 3×3 grid every interpolation index is
in bounds. -/
theorem claim1_witness : advectIdxOK 3 1 zeroV :=
  claim1_advect_indices 3 1 zeroV (by norm_num)
    (by
      intro i j h
      obtain ⟨a, b, c, d⟩ := h
      have hi2 : (i : ℚ) < 2 := by exact_mod_cast (by omega : i < 2)
      have hj2 : (j : ℚ) < 2 := by exact_mod_cast (by omega : j < 2)
      refine ⟨?_, ?_⟩
      · norm_num [traceX, zeroV, zeroF]
        linarith
      · norm_num [traceY, zeroV, zeroF]
        linarith)

/-- C1 counterexample: `fluidBad1` has a configuration the specification calls
valid, yet in the first advection of `step()` the interpolation reads row
index `i0 + 1 = 4` on a 3×3 grid: the clamp to `size + 0.5` leaves the
back-traced coordinate at `3.5`, so `i0 = 3` and the access
`d0[4, j]` is out of bounds and `step()` raises an `IndexError`. -/
theorem claim1_counterexample : validConfig fluidBad1 ∧ ¬ stepIdxOK fluidBad1 := by
  constructor
  · norm_num [validConfig, fluidBad1]
  · intro hOK
    obtain ⟨hA, -, -⟩ := hOK
    have hsz : (stageProject1 (stageDiffuseVelo fluidBad1)).size = 3 := rfl
    have hdt : (stageProject1 (stageDiffuseVelo fluidBad1)).dt = 1 := rfl
    rw [hsz, hdt] at hA
    have h1 := hA 1 (by norm_num) 1 (by norm_num) (by norm_num)
    obtain ⟨-, hbound, -, -⟩ := h1
    have hvel : (stageProject1 (stageDiffuseVelo fluidBad1)).velo0.1 1 1 = -10 := by
      norm_num [stageProject1, stageDiffuseVelo, diffuseV, projectSub, linSolve,
        Function.iterate_one, jacobiInner, setBnd, bCorners, bCor, bCL, bCR,
        bRT, bRB, fluidBad1, velBig, zeroF, zeroV]
    have hidx : advectIdxI 3 1 (stageProject1 (stageDiffuseVelo fluidBad1)).velo0
        1 1 = 3 := by
      unfold advectIdxI
      have htr : traceX 3 1 (stageProject1 (stageDiffuseVelo fluidBad1)).velo0
          1 1 = 11 := by
        unfold traceX
        rw [hvel]
        norm_num
      rw [htr]
      unfold clampCoord
      rw [if_neg (by norm_num), if_pos (by norm_num)]
      rw [Int.floor_eq_iff]
      norm_num
    rw [hidx] at hbound
    omega

/-- C7: on the §8 scenario (size 10, `dt = 0.5`, 8 iterations, zero diffusion
and viscosity, all-zero velocity, density 100 at the interior cell `(5,5)`),
one `step()` leaves the total interior density exactly `100` (so certainly
within any tolerance) and leaves the velocity field all zero. -/
theorem claim7_scenario :
    totalDensity fluidSpec.step = 100 ∧ fluidSpec.step.velo = zeroV := by
  have h1 : stageDiffuseVelo fluidSpec = fluidSpec := by
    have hd : diffuseV 10 8 (1/2) zeroV zeroV 0 = zeroV := by norm_num [diffuseV]
    show { fluidSpec with velo0 := diffuseV 10 8 (1/2) zeroV zeroV 0 } = fluidSpec
    rw [hd]
    rfl
  have h2 : stageProject1 fluidSpec = fluidSpec := by
    have hp := projectSub_zero 10 8
    show { fluidSpec with
        velo0 := ((projectSub 10 8 zeroF zeroF zeroF zeroF).vx,
          (projectSub 10 8 zeroF zeroF zeroF zeroF).vy),
        velo := setBndV 10 ((projectSub 10 8 zeroF zeroF zeroF zeroF).pr,
          (projectSub 10 8 zeroF zeroF zeroF zeroF).dv) } = fluidSpec
    rw [hp]
    show { fluidSpec with velo0 := zeroV, velo := setBndV 10 zeroV } = fluidSpec
    rw [setBndV_zero]
    rfl
  have hpatchz : (fun i j => if inInterior 10 i j then zeroF i j else zeroF i j) =
      zeroF := by
    funext i j
    exact ite_self _
  have h3 : stageAdvectVeloX fluidSpec = fluidSpec := by
    show { fluidSpec with velo := (advect 10 (1/2) zeroF zeroF zeroV, zeroF) } =
      fluidSpec
    rw [advect_zeroVel, hpatchz, setBnd_zero]
    rfl
  have h4 : stageAdvectVeloY fluidSpec = fluidSpec := by
    show { fluidSpec with velo := (zeroF, advect 10 (1/2) zeroF zeroF zeroV) } =
      fluidSpec
    rw [advect_zeroVel, hpatchz, setBnd_zero]
    rfl
  have h5 : stageProject2 fluidSpec = fluidSpec := by
    have hp := projectSub_zero 10 8
    show { fluidSpec with
        velo := setBndV 10 ((projectSub 10 8 zeroF zeroF zeroF zeroF).vx,
          (projectSub 10 8 zeroF zeroF zeroF zeroF).vy),
        velo0 := ((projectSub 10 8 zeroF zeroF zeroF zeroF).pr,
          (projectSub 10 8 zeroF zeroF zeroF zeroF).dv) } = fluidSpec
    rw [hp]
    show { fluidSpec with velo := setBndV 10 zeroV, velo0 := zeroV } = fluidSpec
    rw [setBndV_zero]
    rfl
  have h6 : stageDiffuseDensity fluidSpec = { fluidSpec with s := dInj } := by
    have hd : diffuse 10 8 (1/2) zeroF dInj 0 = dInj := by norm_num [diffuse]
    show { fluidSpec with s := diffuse 10 8 (1/2) zeroF dInj 0 } = _
    rw [hd]
  have h7 : stageAdvectDensity { fluidSpec with s := dInj } =
      { fluidSpec with
        s := dInj,
        density := setBnd 10 dInj } := by
    have hpatch : (fun i j => if inInterior 10 i j then dInj i j else dInj i j) =
        dInj := by
      funext i j
      exact ite_self _
    show { fluidSpec with
        s := dInj,
        density := advect 10 (1/2) dInj dInj zeroV } = _
    rw [advect_zeroVel, hpatch]
  have hstep : fluidSpec.step = { fluidSpec with
      s := dInj,
      density := setBnd 10 dInj } := by
    show stageAdvectDensity (stageDiffuseDensity (stageProject2
      (stageAdvectVeloY (stageAdvectVeloX (stageProject1
        (stageDiffuseVelo fluidSpec)))))) = _
    rw [h1, h2, h3, h4, h5, h6, h7]
  constructor
  · rw [hstep]
    show (∑ i ∈ Finset.Ico 1 9, ∑ j ∈ Finset.Ico 1 9, setBnd 10 dInj i j) = 100
    have hint : ∀ i ∈ Finset.Ico 1 9, ∀ j ∈ Finset.Ico 1 9,
        setBnd 10 dInj i j = dInj i j := by
      intro i hi j hj
      rw [Finset.mem_Ico] at hi hj
      exact setBnd_interior ⟨by omega, by omega, by omega, by omega⟩
    rw [Finset.sum_congr rfl fun i hi =>
      Finset.sum_congr rfl fun j hj => hint i hi j hj]
    have hrow : ∀ i, (∑ j ∈ Finset.Ico 1 9, dInj i j) =
        if i = 5 then (100 : ℚ) else 0 := by
      intro i
      by_cases hi : i = 5
      · subst hi
        rw [if_pos rfl]
        have hv : ∀ j, dInj 5 j = if j = 5 then (100 : ℚ) else 0 := fun j => by
          simp [dInj]
        rw [Finset.sum_congr rfl fun j _ => hv j,
          Finset.sum_ite_eq' (Finset.Ico 1 9) 5 (fun _ => (100 : ℚ))]
        norm_num
      · rw [if_neg hi]
        have hv : ∀ j, dInj i j = 0 := fun j => by simp [dInj, hi]
        rw [Finset.sum_congr rfl fun j _ => hv j]
        exact Finset.sum_const_zero
    rw [Finset.sum_congr rfl fun i _ => hrow i,
      Finset.sum_ite_eq' (Finset.Ico 1 9) 5 (fun _ => (100 : ℚ))]
    norm_num
  · rw [hstep]
    rfl
